import Mathlib

/-!
Formal model of the client-side storefront (cart synchronizer, product list
view, recommendations widget). Each definition is a shallow embedding of the
corresponding function in the TypeScript source; file and line references are
given on each definition. JavaScript numbers are modelled as rationals (ℚ),
entity ids as integers (ℤ). React `useState` semantics are made explicit:
an operation reads the component-render snapshot of the state (the closure
value) while functional updaters act on the evolving actual state; both are
threaded explicitly. Network effects are modelled by passing the outcome of
each fetch as a parameter and by returning the list of remote calls the
operation issues.
-/

namespace Shop

/-- Catalog product, src/app/components/product-card.tsx lines 4-16. -/
structure Product where
  id : ℤ
  title : String
  description : String
  price : ℚ
  discountPercentage : ℚ
  rating : ℚ
  stock : ℚ
  brand : String
  category : String
  thumbnail : String
  images : List String
deriving Repr, DecidableEq

/-- Cart line, src/app/contexts/cart-context.tsx lines 5-12. -/
structure CartItem where
  id : ℤ
  quantity : ℚ
  price : ℚ
  title : String
  thumbnail : String
  stock : ℚ
deriving Repr, DecidableEq

/-- Aggregate cart state, src/app/contexts/cart-context.tsx lines 14-18.
`cartId` is `none` while no remote cart has been created. -/
structure CartState where
  items : List CartItem
  totalQuantity : ℚ
  cartId : Option ℤ
deriving Repr, DecidableEq

/-- A cart line as it appears in remote API responses. The code reads the
fields id, quantity, price, title, thumbnail (cart-context.tsx lines 57-62,
149-154, 458-463) and, on the hydration path only, `totalQuantity`
(line 63). -/
structure RemoteCartProduct where
  id : ℤ
  quantity : ℚ
  price : ℚ
  title : String
  thumbnail : String
  totalQuantity : ℚ
deriving Repr, DecidableEq

/-- Body of a successful cart API response (POST /carts/add, GET /carts/:id,
PUT /carts/:id): the fields the code reads are `id` and `products`. -/
structure CartResponse where
  id : ℤ
  products : List RemoteCartProduct
deriving Repr, DecidableEq

/-- Outcome of one `fetch` call: HTTP success with a parsed body, an HTTP
error status (with status text), or a rejected promise (network error). -/
inductive FetchOutcome (α : Type) where
  | ok (body : α)
  | httpError (status : ℤ) (statusText : String)
  | networkError (message : String)
deriving Repr, DecidableEq

/-- A remote call issued by the cart synchronizer. `createCart` carries the
user id and the seeded (id, quantity) pairs; `putCart` carries the cart id,
the `merge` flag and the full (id, quantity) replacement list. -/
inductive RemoteCall where
  | createCart (userId : ℤ) (products : List (ℤ × ℚ))
  | putCart (cartId : ℤ) (merge : Bool) (products : List (ℤ × ℚ))
  | getCart (cartId : ℤ)
deriving Repr, DecidableEq

/-- The two Durable Client Store keys, cart-context.tsx lines 49-50: the
stored remote cart id (`cartId`, string-encoded) and the stored item list
(`cartItems`, JSON-encoded); `none` means the key is absent. -/
structure LocalStorage where
  cartId : Option ℤ
  cartItems : Option (List CartItem)
deriving Repr, DecidableEq

/-- `items.reduce((sum, item) => sum + item.quantity, 0)`, the total-quantity
recomputation used throughout cart-context.tsx (lines 67, 89, 223, 288, 331,
366). -/
def totalQty (items : List CartItem) : ℚ :=
  items.foldl (fun sum it => sum + it.quantity) 0

/-- JavaScript `found?.stock || d`: the default `d` is used when no item was
found, and also when the found stock is `0` (a falsy number). -/
def stockOrDefault (found : Option CartItem) (d : ℚ) : ℚ :=
  match found with
  | none => d
  | some it => if it.stock = 0 then d else it.stock

/-- JavaScript truthiness of a nullable cart id (`if (newCartId)`,
cart-context.tsx line 185): `null` and `0` are falsy. -/
def jsTruthyId (v : Option ℤ) : Bool :=
  match v with
  | none => false
  | some n => n != 0

/-- The empty cart state `{ items: [], totalQuantity: 0, cartId: null }`. -/
def emptyCartState : CartState := ⟨[], 0, none⟩

/-- Hydration mapping of one remote cart line to a `CartItem`,
cart-context.tsx lines 57-64: the stock field is set to
`p.totalQuantity / p.quantity` (the comment in the source calls this an
estimate of stock). -/
def hydratedItem (p : RemoteCartProduct) : CartItem :=
  ⟨p.id, p.quantity, p.price, p.title, p.thumbnail, p.totalQuantity / p.quantity⟩

/-- `initializeCart`, cart-context.tsx lines 46-105. Inputs: the stored keys
and the outcome of the GET /carts/:id fetch (only consulted when a stored id
exists). Returns the hydrated cart state together with the stored keys after
the explicit `removeItem` calls the function performs. -/
def initializeCart (stored : LocalStorage)
    (fetchOutcome : FetchOutcome CartResponse) : CartState × LocalStorage :=
  match stored.cartId with
  | some _ =>
    match fetchOutcome with
    | .ok cartData =>
      let items := cartData.products.map hydratedItem
      (⟨items, totalQty items, some cartData.id⟩, stored)
    | .httpError status _ =>
      if status == 404 then
        (emptyCartState, ⟨none, none⟩)
      else
        (emptyCartState, ⟨none, none⟩)
    | .networkError _ => (emptyCartState, ⟨none, none⟩)
  | none =>
    match stored.cartItems with
    | some items => (⟨items, totalQty items, none⟩, stored)
    | none => (emptyCartState, stored)

/-- The persistence effect, cart-context.tsx lines 110-124: after every state
change, `cartItems` is stored when the cart has items or a remote id and
removed otherwise, and `cartId` is stored when non-null and removed
otherwise. -/
def persistEffect (s : CartState) : LocalStorage :=
  ⟨s.cartId, if 0 < s.items.length ∨ s.cartId ≠ none then some s.items else none⟩

/-- `updateCartAPI`, cart-context.tsx lines 417-476. `s0` is the render
snapshot captured by the enclosing closure (the code reads
`cartState.cartId` and `cartState.items` from it), `a` is the actual state
at call time, `updatedItemsOverride` the optional argument, `outcome` the
PUT /carts/:id result. Returns the resulting state and the remote calls
issued. All errors are caught inside the function (lines 470-472), so no
branch alters the already-applied optimistic state on failure. -/
def updateCartAPI (s0 a : CartState) (updatedItemsOverride : Option (List CartItem))
    (outcome : FetchOutcome CartResponse) : CartState × List RemoteCall :=
  match s0.cartId with
  | none => (a, [])
  | some currentCartId =>
    if currentCartId == 0 then (a, [])
    else
      let itemsToUpdate := updatedItemsOverride.getD s0.items
      let call := RemoteCall.putCart currentCartId false
        (itemsToUpdate.map (fun p => (p.id, p.quantity)))
      match outcome with
      | .ok updatedCartData =>
        match updatedItemsOverride with
        | some _ => (a, [call])
        | none =>
          ({ a with
              items := updatedCartData.products.map (fun p =>
                ⟨p.id, p.quantity, p.price, p.title, p.thumbnail,
                  stockOrDefault (a.items.find? (fun i => i.id == p.id)) 0⟩),
              totalQuantity :=
                updatedCartData.products.foldl (fun sum p => sum + p.quantity) 0 },
            [call])
      | _ => (a, [call])

/-- `createNewCart`, cart-context.tsx lines 126-175. `s` is both the render
snapshot and the actual state at call time. Returns the resulting state, the
remote calls issued (the POST /carts/add is issued in every case), and the
value the function returns to its caller (`newCartData.id` on success,
`null` on failure). The seeded line's stock is looked up in the snapshot
item list with default 100 (lines 159-160); every other returned line gets
the placeholder 100. -/
def createNewCart (s : CartState) (initialProduct : Option (ℤ × ℚ))
    (outcome : FetchOutcome CartResponse) :
    CartState × List RemoteCall × Option ℤ :=
  let productsToAdd :=
    match initialProduct with
    | some ip => [ip]
    | none => []
  let call := RemoteCall.createCart 1 productsToAdd
  match outcome with
  | .ok newCartData =>
    ({ cartId := some newCartData.id,
       items := newCartData.products.map (fun p =>
         ⟨p.id, p.quantity, p.price, p.title, p.thumbnail,
           match initialProduct with
           | some (ipId, _) =>
             if p.id == ipId then
               stockOrDefault (s.items.find? (fun it => it.id == ipId)) 100
             else 100
           | none => 100⟩),
       totalQuantity := newCartData.products.foldl (fun sum p => sum + p.quantity) 0 },
     [call], some newCartData.id)
  | _ => (s, [call], none)

/-- `addToCart`, cart-context.tsx lines 177-303. `s` is the render snapshot
(and the actual state when the operation starts). When `s.cartId` is null
the operation first runs `createNewCart`; afterwards it consults the stale
snapshot `s.items` (lines 207, 245), so the follow-up
`updateCartAPI(cartState.items)` call sees the old null cart id and returns
without issuing a remote call. When the cart exists, the local mutation is
applied and the full new list is pushed via `updateCartAPI`. -/
def addToCart (s : CartState) (product : Product) (quantity : ℚ)
    (createOutcome putOutcome : FetchOutcome CartResponse) :
    CartState × List RemoteCall :=
  match s.cartId with
  | none =>
    let res := createNewCart s (some (product.id, quantity)) createOutcome
    let s1 := res.1
    let createCalls := res.2.1
    let newCartIdOpt := res.2.2
    if jsTruthyId newCartIdOpt then
      let s2 :=
        match s.items.find? (fun it => it.id == product.id) with
        | some _ =>
          let updatedItems := s1.items.map (fun it =>
            if it.id == product.id then
              { it with
                  stock := product.stock, price := product.price,
                  title := product.title, thumbnail := product.thumbnail }
            else it)
          { s1 with items := updatedItems, totalQuantity := totalQty updatedItems }
        | none =>
          let newItem : CartItem :=
            ⟨product.id, quantity, product.price, product.title,
              product.thumbnail, product.stock⟩
          { s1 with
              items := s1.items ++ [newItem],
              totalQuantity := s1.totalQuantity + quantity }
      let res2 := updateCartAPI s s2 (some s.items) putOutcome
      (res2.1, createCalls ++ res2.2)
    else
      (s1, createCalls)
  | some _ =>
    let newItems :=
      match s.items.find? (fun it => it.id == product.id) with
      | some existingItem =>
        let newQuantity := existingItem.quantity + quantity
        if newQuantity ≤ 0 then
          s.items.filter (fun it => it.id != product.id)
        else
          s.items.map (fun it =>
            if it.id == product.id then
              { it with quantity := min newQuantity it.stock }
            else it)
      | none =>
        s.items ++
          [⟨product.id, min quantity product.stock, product.price,
            product.title, product.thumbnail, product.stock⟩]
    let s2 := { s with items := newItems, totalQuantity := totalQty newItems }
    updateCartAPI s s2 (some newItems) putOutcome

/-- `updateQuantity`, cart-context.tsx lines 305-348: a null cart id or a
missing target line is logged and ignored; otherwise quantity ≤ 0 removes
the line and a positive quantity is clamped to the line's stock, then the
full list is pushed via `updateCartAPI`. -/
def updateQuantity (s : CartState) (productId : ℤ) (quantity : ℚ)
    (outcome : FetchOutcome CartResponse) : CartState × List RemoteCall :=
  match s.cartId with
  | none => (s, [])
  | some _ =>
    match s.items.find? (fun it => it.id == productId) with
    | none => (s, [])
    | some _ =>
      let newItems :=
        if quantity ≤ 0 then
          s.items.filter (fun it => it.id != productId)
        else
          s.items.map (fun it =>
            if it.id == productId then
              { it with quantity := min quantity it.stock }
            else it)
      let s2 := { s with items := newItems, totalQuantity := totalQty newItems }
      updateCartAPI s s2 (some newItems) outcome

/-- `removeFromCart`, cart-context.tsx lines 350-382. -/
def removeFromCart (s : CartState) (productId : ℤ)
    (outcome : FetchOutcome CartResponse) : CartState × List RemoteCall :=
  match s.cartId with
  | none => (s, [])
  | some _ =>
    match s.items.find? (fun it => it.id == productId) with
    | none => (s, [])
    | some _ =>
      let newItems := s.items.filter (fun it => it.id != productId)
      let s2 := { s with items := newItems, totalQuantity := totalQty newItems }
      updateCartAPI s s2 (some newItems) outcome

/-- `clearCart`, cart-context.tsx lines 384-415: with no remote cart the
whole state is reset locally and no call is made; otherwise the line list is
emptied locally and an empty list is pushed, keeping the cart id. -/
def clearCart (s : CartState) (outcome : FetchOutcome CartResponse) :
    CartState × List RemoteCall :=
  match s.cartId with
  | none => (⟨[], 0, none⟩, [])
  | some _ =>
    let s2 := { s with items := ([] : List CartItem), totalQuantity := 0 }
    updateCartAPI s s2 (some []) outcome

/-- One cart mutation together with the outcomes of the remote calls it may
make. -/
inductive CartOp where
  | add (product : Product) (quantity : ℚ)
      (createOutcome putOutcome : FetchOutcome CartResponse)
  | update (productId : ℤ) (quantity : ℚ) (outcome : FetchOutcome CartResponse)
  | remove (productId : ℤ) (outcome : FetchOutcome CartResponse)
  | clear (outcome : FetchOutcome CartResponse)

/-- Dispatch of one mutation to the corresponding cart-context function. -/
def applyCartOp (s : CartState) : CartOp → CartState × List RemoteCall
  | .add p q c u => addToCart s p q c u
  | .update pid q oc => updateQuantity s pid q oc
  | .remove pid oc => removeFromCart s pid oc
  | .clear oc => clearCart s oc

/-- The spec's P1 invariant: every line's quantity is at least 1 and at most
its recorded stock. -/
def stockInv (s : CartState) : Prop :=
  ∀ it ∈ s.items, 1 ≤ it.quantity ∧ it.quantity ≤ it.stock

/-- The spec's P2 invariant: `totalQuantity` equals the sum of line
quantities. -/
def totalInv (s : CartState) : Prop :=
  s.totalQuantity = totalQty s.items

/-- Body of a GET /products response as the read paths inspect it:
`products` may be absent (`none` models a missing field) and so may
`total`. -/
structure ProductsResponse where
  products : Option (List Product)
  total : Option ℚ
deriving Repr, DecidableEq

/-- Loader data shape, src/app/routes/home.tsx lines 6-11. -/
structure HomeLoaderData where
  products : List Product
  total : ℚ
  initialLimit : ℚ
  initialSkip : ℚ
deriving Repr, DecidableEq

/-- Result of the home route `loader`: success with data, a thrown
`Response` (status and message), or an unhandled promise rejection (the
loader has no try/catch around its fetch). -/
inductive LoaderResult where
  | success (d : HomeLoaderData)
  | failure (status : ℤ) (message : String)
  | thrown (message : String)
deriving Repr, DecidableEq

/-- `loader`, src/app/routes/home.tsx lines 13-33: a non-ok response throws a
Response with the fetch status; an ok response whose body lacks a `products`
array or a numeric `total` throws a 500 "Invalid data format from API"
Response; otherwise the data is returned with limit 20 and skip 0. -/
def loader (outcome : FetchOutcome ProductsResponse) : LoaderResult :=
  match outcome with
  | .ok data =>
    match data.products, data.total with
    | some ps, some t => .success ⟨ps, t, 20, 0⟩
    | some _, none => .failure 500 "Invalid data format from API"
    | none, _ => .failure 500 "Invalid data format from API"
  | .httpError status _ => .failure status "Failed to fetch products"
  | .networkError msg => .thrown msg

/-- Client-side state of the product list view, src/app/routes/home.tsx
lines 44-47. -/
structure HomeState where
  products : List Product
  skip : ℚ
  hasMore : Bool
  loadingMore : Bool
deriving Repr, DecidableEq

/-- Initial client state, src/app/routes/home.tsx lines 44-47: `hasMore`
starts as `initialData.products.length < initialData.total`. -/
def initHomeState (d : HomeLoaderData) : HomeState :=
  ⟨d.products, d.initialLimit, decide ((d.products.length : ℚ) < d.total), false⟩

/-- `fetchMoreProducts`, src/app/routes/home.tsx lines 51-84. A guard returns
immediately while loading or exhausted. A non-ok response or a rejected
fetch sets `hasMore` to false. On success, a non-empty `products` array is
appended, `skip` advances by the page length and `hasMore` becomes
`(previous count + page length) < data.total` (false when `total` is
absent, mirroring a comparison against undefined); an absent or empty
`products` array sets `hasMore` to false. The transient `loadingMore`
toggle is reset by `finally`, so only final states are modelled. -/
def fetchMoreProducts (s : HomeState) (outcome : FetchOutcome ProductsResponse) :
    HomeState :=
  if s.loadingMore || !s.hasMore then s
  else
    match outcome with
    | .ok data =>
      match data.products with
      | some ps =>
        if 0 < ps.length then
          { products := s.products ++ ps,
            skip := s.skip + ps.length,
            hasMore :=
              match data.total with
              | some t => decide (((s.products.length : ℚ) + ps.length) < t)
              | none => false,
            loadingMore := s.loadingMore }
        else { s with hasMore := false }
      | none => { s with hasMore := false }
    | .httpError _ _ => { s with hasMore := false }
    | .networkError _ => { s with hasMore := false }

/-- The end-of-results indicator condition, src/app/routes/home.tsx line 127:
`!loadingMore && !hasMore && products.length > 0 &&
initialData.products.length > 0`. -/
def showEndIndicator (d : HomeLoaderData) (s : HomeState) : Bool :=
  !s.loadingMore && !s.hasMore && decide (0 < s.products.length) &&
    decide (0 < d.products.length)

/-- A sequence of scroll-triggered fetches applied from the initial client
state. -/
def runFetches (d : HomeLoaderData) (ocs : List (FetchOutcome ProductsResponse)) :
    HomeState :=
  ocs.foldl fetchMoreProducts (initHomeState d)

/-- Render outcome of the recommendations widget,
src/app/components/recommendations-widget.tsx lines 50-60: an error message
or the fetched-and-filtered product list (the empty list renders the
"No recommendations available" state). -/
inductive RecState where
  | success (recommendedProducts : List Product)
  | failure (errorMessage : String)
deriving Repr, DecidableEq

/-- Whether the widget renders its error state. -/
def RecState.isError : RecState → Bool
  | .failure _ => true
  | .success _ => false

/-- `fetchRecommendations`, src/app/components/recommendations-widget.tsx
lines 16-45. A non-ok response throws and the catch stores the error message
built from the status text; a rejected fetch stores the rejection's message.
On success the body's `products` field is coerced with `data.products || []`
(an absent field becomes the empty list), the current product is filtered
out when `currentProductId` is truthy (the id 0 is falsy), and the first 4
products are kept. -/
def fetchRecommendations (currentProductId : Option ℤ)
    (outcome : FetchOutcome ProductsResponse) : RecState :=
  match outcome with
  | .ok data =>
    let products := data.products.getD []
    let filtered :=
      match currentProductId with
      | some pid =>
        if pid == 0 then products
        else products.filter (fun p => p.id != pid)
      | none => products
    .success (filtered.take 4)
  | .httpError _ statusText =>
    .failure ("Failed to fetch recommendations: " ++ statusText)
  | .networkError msg => .failure msg

instance stockInv.instDecidable (s : CartState) : Decidable (stockInv s) :=
  List.decidableBAll _ s.items

instance totalInv.instDecidable (s : CartState) : Decidable (totalInv s) :=
  inferInstanceAs (Decidable (s.totalQuantity = totalQty s.items))

/-! ### Helper lemmas -/

theorem totalQty_append (xs : List CartItem) (y : CartItem) :
    totalQty (xs ++ [y]) = totalQty xs + y.quantity := by
  simp [totalQty, List.foldl_append]

theorem foldl_quantity_map_aux (f : RemoteCartProduct → CartItem)
    (h : ∀ p, (f p).quantity = p.quantity) (ps : List RemoteCartProduct) (a : ℚ) :
    (ps.map f).foldl (fun sum it => sum + it.quantity) a =
      ps.foldl (fun sum p => sum + p.quantity) a := by
  induction ps generalizing a with
  | nil => rfl
  | cons p ps ih => simp [List.foldl_cons, h, ih]

theorem totalQty_map (f : RemoteCartProduct → CartItem)
    (h : ∀ p, (f p).quantity = p.quantity) (ps : List RemoteCartProduct) :
    totalQty (ps.map f) = ps.foldl (fun sum p => sum + p.quantity) 0 :=
  foldl_quantity_map_aux f h ps 0

/-- With an override list, `updateCartAPI` never alters the state it is
given: the server response is not adopted on that path. -/
theorem updateCartAPI_override_fst (s0 a : CartState) (xs : List CartItem)
    (oc : FetchOutcome CartResponse) :
    (updateCartAPI s0 a (some xs) oc).1 = a := by
  unfold updateCartAPI
  cases hc : s0.cartId with
  | none => rfl
  | some cid =>
    by_cases h0 : (cid == 0) = true
    · simp [h0]
    · cases oc <;> simp [h0]

theorem totalInv_updateQuantity (s : CartState) (pid : ℤ) (q : ℚ)
    (oc : FetchOutcome CartResponse) (h : totalInv s) :
    totalInv (updateQuantity s pid q oc).1 := by
  unfold updateQuantity
  cases hc : s.cartId with
  | none => exact h
  | some cid =>
    cases hf : s.items.find? (fun it => it.id == pid) with
    | none => exact h
    | some e =>
      simp only [updateCartAPI_override_fst]
      rfl

theorem totalInv_removeFromCart (s : CartState) (pid : ℤ)
    (oc : FetchOutcome CartResponse) (h : totalInv s) :
    totalInv (removeFromCart s pid oc).1 := by
  unfold removeFromCart
  cases hc : s.cartId with
  | none => exact h
  | some cid =>
    cases hf : s.items.find? (fun it => it.id == pid) with
    | none => exact h
    | some e =>
      simp only [updateCartAPI_override_fst]
      rfl

theorem totalInv_clearCart (s : CartState) (oc : FetchOutcome CartResponse) :
    totalInv (clearCart s oc).1 := by
  unfold clearCart
  cases hc : s.cartId with
  | none => rfl
  | some cid =>
    simp only [updateCartAPI_override_fst]
    rfl

theorem totalInv_createNewCart (s : CartState) (ip : Option (ℤ × ℚ))
    (oc : FetchOutcome CartResponse) (h : totalInv s) :
    totalInv (createNewCart s ip oc).1 := by
  unfold createNewCart
  cases oc with
  | ok body =>
    show totalInv ⟨_, _, _⟩
    unfold totalInv
    rw [totalQty_map]
    intro p
    rfl
  | httpError st txt => exact h
  | networkError m => exact h

theorem totalInv_addToCart (s : CartState) (p : Product) (q : ℚ)
    (c u : FetchOutcome CartResponse) (h : totalInv s) :
    totalInv (addToCart s p q c u).1 := by
  unfold addToCart
  cases hc : s.cartId with
  | some cid =>
    simp only [updateCartAPI_override_fst]
    rfl
  | none =>
    cases hres : createNewCart s (some (p.id, q)) c with
    | mk s1 rest =>
      rcases rest with ⟨calls, ridOpt⟩
      by_cases ht : jsTruthyId ridOpt = true
      · simp only [hres, ht, if_pos]
        cases hf : s.items.find? (fun it => it.id == p.id) with
        | some e =>
          simp only [updateCartAPI_override_fst]
          rfl
        | none =>
          simp only [updateCartAPI_override_fst]
          show totalInv ⟨s1.items ++ [_], s1.totalQuantity + q, s1.cartId⟩
          have h1 : totalInv s1 := by
            have := totalInv_createNewCart s (some (p.id, q)) c h
            rwa [hres] at this
          unfold totalInv at h1 ⊢
          rw [totalQty_append, ← h1]
      · rw [if_neg ht]
        show totalInv s1
        have := totalInv_createNewCart s (some (p.id, q)) c h
        rwa [hres] at this

theorem totalInv_initializeCart (stored : LocalStorage)
    (fo : FetchOutcome CartResponse) :
    totalInv (initializeCart stored fo).1 := by
  unfold initializeCart
  cases hc : stored.cartId with
  | none =>
    cases hi : stored.cartItems with
    | none => rfl
    | some items => rfl
  | some cid =>
    cases fo with
    | ok body => rfl
    | httpError st txt =>
      by_cases h4 : (st == 404) = true
      · simp [h4]; rfl
      · simp [h4]; rfl
    | networkError m => rfl

theorem cartId_updateQuantity (s : CartState) (pid : ℤ) (q : ℚ)
    (oc : FetchOutcome CartResponse) :
    (updateQuantity s pid q oc).1.cartId = s.cartId := by
  unfold updateQuantity
  cases hc : s.cartId with
  | none => simp [hc]
  | some cid =>
    cases hf : s.items.find? (fun it => it.id == pid) with
    | none => simp [hc]
    | some e => simp only [updateCartAPI_override_fst]

theorem cartId_removeFromCart (s : CartState) (pid : ℤ)
    (oc : FetchOutcome CartResponse) :
    (removeFromCart s pid oc).1.cartId = s.cartId := by
  unfold removeFromCart
  cases hc : s.cartId with
  | none => simp [hc]
  | some cid =>
    cases hf : s.items.find? (fun it => it.id == pid) with
    | none => simp [hc]
    | some e => simp only [updateCartAPI_override_fst]

theorem cartId_clearCart (s : CartState) (oc : FetchOutcome CartResponse) :
    (clearCart s oc).1.cartId = s.cartId := by
  unfold clearCart
  cases hc : s.cartId with
  | none => simp [hc]
  | some cid => simp only [updateCartAPI_override_fst]

theorem cartId_addToCart_existing (s : CartState) (p : Product) (q : ℚ)
    (c u : FetchOutcome CartResponse) (h : s.cartId ≠ none) :
    (addToCart s p q c u).1.cartId = s.cartId := by
  unfold addToCart
  cases hc : s.cartId with
  | none => exact absurd hc h
  | some cid => simp only [updateCartAPI_override_fst]

theorem stockInv_updateQuantity (s : CartState) (pid : ℤ) (q : ℚ)
    (oc : FetchOutcome CartResponse) (h : stockInv s) (hq : q ≤ 0 ∨ 1 ≤ q) :
    stockInv (updateQuantity s pid q oc).1 := by
  unfold updateQuantity
  cases hc : s.cartId with
  | none => exact h
  | some cid =>
    cases hf : s.items.find? (fun it => it.id == pid) with
    | none => exact h
    | some e =>
      simp only [updateCartAPI_override_fst]
      by_cases hq0 : q ≤ 0
      · rw [if_pos hq0]
        intro it hit
        exact h it (List.mem_of_mem_filter hit)
      · have hq1 : 1 ≤ q := hq.resolve_left hq0
        rw [if_neg hq0]
        intro it' hit'
        rcases List.mem_map.mp hit' with ⟨it, hit, rfl⟩
        by_cases hid : (it.id == pid) = true
        · rw [if_pos hid]
          refine ⟨le_min hq1 ?_, min_le_right _ _⟩
          exact le_trans (h it hit).1 (h it hit).2
        · rw [if_neg hid]
          exact h it hit

theorem stockInv_addToCart_existing (s : CartState) (p : Product) (q : ℚ)
    (c u : FetchOutcome CartResponse) (h : stockInv s) (hcid : s.cartId ≠ none)
    (hq : 1 ≤ q) (hstock : 1 ≤ p.stock) :
    stockInv (addToCart s p q c u).1 := by
  unfold addToCart
  cases hc : s.cartId with
  | none => exact absurd hc hcid
  | some cid =>
    simp only [updateCartAPI_override_fst]
    cases hf : s.items.find? (fun it => it.id == p.id) with
    | none =>
      intro it hit
      rcases List.mem_append.mp hit with hl | hr
      · exact h it hl
      · rcases List.mem_singleton.mp hr with rfl
        exact ⟨le_min hq hstock, min_le_right _ _⟩
    | some e =>
      have he : e ∈ s.items := List.mem_of_find?_eq_some hf
      have hnq : ¬ (e.quantity + q ≤ 0) := by
        have h1 := (h e he).1
        intro habs
        linarith
      dsimp only
      rw [if_neg hnq]
      intro it' hit'
      rcases List.mem_map.mp hit' with ⟨it, hit, rfl⟩
      by_cases hid : (it.id == p.id) = true
      · rw [if_pos hid]
        refine ⟨le_min ?_ ?_, min_le_right _ _⟩
        · have h1 := (h e he).1
          linarith
        · exact le_trans (h it hit).1 (h it hit).2
      · rw [if_neg hid]
        exact h it hit

/-- The restriction of the spec's add/update preconditions to one operation:
an `add` carries a positive quantity and a product with positive stock, an
`update` carries an integer-like quantity (no value strictly between 0 and
1); `remove` and `clear` are outside the claim's sequences. -/
def goodMutOp : CartOp → Prop
  | .add p q _ _ => 1 ≤ q ∧ 1 ≤ p.stock
  | .update _ q _ => q ≤ 0 ∨ 1 ≤ q
  | .remove _ _ => False
  | .clear _ => False

theorem stockInv_foldl (ops : List CartOp) :
    ∀ s : CartState, stockInv s → s.cartId ≠ none →
      (∀ op ∈ ops, goodMutOp op) →
      stockInv (ops.foldl (fun st op => (applyCartOp st op).1) s) ∧
        (ops.foldl (fun st op => (applyCartOp st op).1) s).cartId ≠ none := by
  induction ops with
  | nil => exact fun s h1 h2 _ => ⟨h1, h2⟩
  | cons op ops ih =>
    intro s h1 h2 h3
    have hop : goodMutOp op := h3 op (List.mem_cons_self op ops)
    have hrest : ∀ o ∈ ops, goodMutOp o := fun o ho => h3 o (List.mem_cons_of_mem _ ho)
    rw [List.foldl_cons]
    cases op with
    | add p q c u =>
      refine ih _ (stockInv_addToCart_existing s p q c u h1 h2 hop.1 hop.2) ?_ hrest
      rw [show (applyCartOp s (CartOp.add p q c u)).1 = (addToCart s p q c u).1 from rfl,
        cartId_addToCart_existing s p q c u h2]
      exact h2
    | update pid q oc =>
      refine ih _ (stockInv_updateQuantity s pid q oc h1 hop) ?_ hrest
      rw [show (applyCartOp s (CartOp.update pid q oc)).1 = (updateQuantity s pid q oc).1 from rfl,
        cartId_updateQuantity s pid q oc]
      exact h2
    | remove pid oc => exact absurd hop id
    | clear oc => exact absurd hop id

/-- Whether a cart operation is an `addToCart` call. -/
def opIsAdd : CartOp → Prop
  | .add _ _ _ _ => True
  | _ => False

theorem loadingMore_fetchMoreProducts (s : HomeState)
    (oc : FetchOutcome ProductsResponse) :
    (fetchMoreProducts s oc).loadingMore = s.loadingMore := by
  unfold fetchMoreProducts
  by_cases hg : (s.loadingMore || !s.hasMore) = true
  · rw [if_pos hg]
  · rw [if_neg hg]
    rcases oc with data | ⟨st, txt⟩ | m
    · rcases data with ⟨ps', t'⟩
      cases ps' with
      | none => rfl
      | some ps =>
        dsimp only
        by_cases hl : 0 < ps.length
        · rw [if_pos hl]
        · rw [if_neg hl]
    · rfl
    · rfl

theorem products_length_fetchMoreProducts (s : HomeState)
    (oc : FetchOutcome ProductsResponse) :
    s.products.length ≤ (fetchMoreProducts s oc).products.length := by
  unfold fetchMoreProducts
  by_cases hg : (s.loadingMore || !s.hasMore) = true
  · rw [if_pos hg]
  · rw [if_neg hg]
    rcases oc with data | ⟨st, txt⟩ | m
    · rcases data with ⟨ps', t'⟩
      cases ps' with
      | none => exact le_refl _
      | some ps =>
        dsimp only
        by_cases hl : 0 < ps.length
        · rw [if_pos hl]
          simp [List.length_append]
        · rw [if_neg hl]
    · exact le_refl _
    · exact le_refl _

theorem loadingMore_foldl (ocs : List (FetchOutcome ProductsResponse)) :
    ∀ s : HomeState, (ocs.foldl fetchMoreProducts s).loadingMore = s.loadingMore := by
  induction ocs with
  | nil => exact fun s => rfl
  | cons oc ocs ih =>
    intro s
    rw [List.foldl_cons, ih, loadingMore_fetchMoreProducts]

theorem products_length_foldl (ocs : List (FetchOutcome ProductsResponse)) :
    ∀ s : HomeState, s.products.length ≤ (ocs.foldl fetchMoreProducts s).products.length := by
  induction ocs with
  | nil => exact fun s => le_refl _
  | cons oc ocs ih =>
    intro s
    rw [List.foldl_cons]
    exact le_trans (products_length_fetchMoreProducts s oc) (ih _)

theorem loadingMore_runFetches (d : HomeLoaderData)
    (ocs : List (FetchOutcome ProductsResponse)) :
    (runFetches d ocs).loadingMore = false :=
  loadingMore_foldl ocs (initHomeState d)

theorem products_length_runFetches (d : HomeLoaderData)
    (ocs : List (FetchOutcome ProductsResponse)) :
    d.products.length ≤ (runFetches d ocs).products.length :=
  products_length_foldl ocs (initHomeState d)

theorem fetchMore_stop_iff (s : HomeState) (ps : List Product) (t : ℚ)
    (hload : s.loadingMore = false) (hmore : s.hasMore = true) :
    (fetchMoreProducts s (.ok ⟨some ps, some t⟩)).hasMore = false ↔
      (ps = [] ∨ t ≤ ((s.products.length : ℚ) + ps.length)) := by
  have hguard : (s.loadingMore || !s.hasMore) = false := by
    rw [hload, hmore]
    rfl
  unfold fetchMoreProducts
  rw [hguard, if_neg Bool.false_ne_true]
  dsimp only
  by_cases hl : 0 < ps.length
  · rw [if_pos hl]
    have hne : ps ≠ [] := List.ne_nil_of_length_pos hl
    dsimp only
    rw [decide_eq_false_iff_not, not_lt]
    constructor
    · exact fun h => Or.inr h
    · rintro (rfl | h)
      · exact absurd hl (by simp)
      · exact h
  · rw [if_neg hl]
    have hnil : ps = [] := List.eq_nil_of_length_eq_zero (Nat.eq_zero_of_not_pos hl)
    simp [hnil]

theorem showEnd_runFetches (d : HomeLoaderData)
    (ocs : List (FetchOutcome ProductsResponse)) :
    showEndIndicator d (runFetches d ocs) =
      (!(runFetches d ocs).hasMore && decide (0 < d.products.length)) := by
  unfold showEndIndicator
  rw [loadingMore_runFetches]
  rcases Nat.eq_zero_or_pos d.products.length with h0 | hpos
  · simp [h0]
  · have hs : 0 < (runFetches d ocs).products.length :=
      lt_of_lt_of_le hpos (products_length_runFetches d ocs)
    simp [hpos, hs]

/-! ### Concrete fixtures used by counterexamples and code-bug evaluations -/

/-- A product with stock 0, which the spec's add precondition permits
(`stock ≥ 0`). -/
def c1Product : Product := ⟨1, "Widget", "d", 10, 0, 0, 0, "b", "c", "t", []⟩

/-- An empty cart that already has a remote id. -/
def c1StartState : CartState := ⟨[], 0, some 5⟩

/-- A product with positive stock for the amended-claim witness. -/
def c1GoodProduct : Product := ⟨1, "Widget", "d", 10, 0, 0, 3, "b", "c", "t", []⟩

def c3Item : CartItem := ⟨1, 2, 10, "A", "t", 5⟩

def c3State : CartState := ⟨[c3Item], 2, some 7⟩

/-- A PUT /carts/:id response in which the server reports quantity 4 for the
line the client set to 3. -/
def c3Response : CartResponse := ⟨7, [⟨1, 4, 10, "A", "t", 4⟩]⟩

/-- The product of the repository's own first-add test
(src/unnamed/part_004, `fullProduct1`): id 1, price 100, stock 10. -/
def c4Product : Product :=
  ⟨1, "Test Product 1", "Desc 1", 100, 10, 4, 10, "Brand1", "Cat1", "test1.jpg", []⟩

/-- The mocked POST /carts/add success of that test: new cart id 101 echoing
the seeded line with quantity 1. -/
def c4CreateResponse : CartResponse :=
  ⟨101, [⟨1, 1, 100, "Test Product 1", "test1.jpg", 1⟩]⟩

def c5Item : CartItem := ⟨1, 2, 10, "A", "t", 5⟩

/-- Stored keys before a hydration run: remote id 9 and one stored line. -/
def c5Stored : LocalStorage := ⟨some 9, some [c5Item]⟩

/-- A locally stored line recording stock 10 for product 1 (the hydration
test of src/unnamed/part_004 stores exactly such an item). -/
def c6LocalItem : CartItem := ⟨1, 1, 100, "Test Product 1", "test1.jpg", 10⟩

/-- The remote cart line for product 1 as fetched during hydration. -/
def c6RemoteLine : RemoteCartProduct := ⟨1, 2, 100, "Test Product 1", "test1.jpg", 2⟩

def c9Prod : Product := ⟨1, "P", "d", 5, 0, 0, 3, "b", "c", "t", []⟩

/-- An initial load that returned zero items while the server reported a
total of 1. -/
def c9Init : HomeLoaderData := ⟨[], 1, 20, 0⟩

/-- The client state after one successful scroll fetch that returned one
item (total 1): the list is exhausted. -/
def c9S1 : HomeState :=
  fetchMoreProducts (initHomeState c9Init) (.ok ⟨some [c9Prod], some 1⟩)

/-- An initial load with one item and total 2, for the amended-claim
witness. -/
def c9WitData : HomeLoaderData := ⟨[c9Prod], 2, 20, 0⟩

/-! ### Claims -/

/-- C1 counterexample. The claim says every add/update sequence from an
invariant-satisfying cart leaves every line with 1 ≤ quantity ≤ stock. With
the spec's own preconditions (positive quantity, product stock ≥ 0), adding
a product whose stock is 0 to a cart that already has a remote id inserts a
line with quantity `min 1 0 = 0`, which stays in the list: the invariant
"quantity at least 1, no quantity-0 line" fails after a single operation. -/
theorem c1_zero_stock_counterexample :
    stockInv c1StartState ∧ (1 : ℚ) ≤ 1 ∧ (0 : ℚ) ≤ c1Product.stock ∧
      ¬ stockInv (applyCartOp c1StartState
        (CartOp.add c1Product 1 (.networkError "offline") (.networkError "offline"))).1 :=
  ⟨by decide, by norm_num, by norm_num [c1Product], by decide⟩

/-- C1 amended: for every sequence of addToCart and updateQuantity
operations applied to a cart state satisfying the invariant that already has
a remote cart id (`cartId ≠ null`), where every added product has stock at
least 1 and every operation's quantity is a positive integer (for update:
any quantity, excluding values strictly between 0 and 1), every CartItem in
the resulting cart state has quantity at most its recorded stock field and
at least 1. -/
theorem c1_stock_ceiling_amended (s : CartState) (ops : List CartOp)
    (h1 : stockInv s) (h2 : s.cartId ≠ none) (h3 : ∀ op ∈ ops, goodMutOp op) :
    stockInv (ops.foldl (fun st op => (applyCartOp st op).1) s) :=
  (stockInv_foldl ops s h1 h2 h3).1

/-- Witness for C1 amended: an add of a stock-3 product then an update to
quantity 2, from an empty cart with remote id 1. -/
theorem c1_stock_ceiling_amended_witness :
    stockInv (List.foldl (fun st op => (applyCartOp st op).1) ⟨[], 0, some 1⟩
      [CartOp.add c1GoodProduct 1 (.ok ⟨1, []⟩) (.ok ⟨1, []⟩),
       CartOp.update 1 2 (.ok ⟨1, []⟩)]) := by
  refine c1_stock_ceiling_amended _ _ (by decide) (by decide) ?_
  intro op hop
  rcases List.mem_cons.mp hop with rfl | hop
  · exact ⟨by norm_num, by norm_num [c1GoodProduct]⟩
  · rcases List.mem_cons.mp hop with rfl | hop
    · exact Or.inr (by norm_num)
    · cases hop

/-- C2: after every mutation (addToCart, updateQuantity, removeFromCart,
clearCart — each with an arbitrary remote outcome) applied to a state whose
totalQuantity already equals the sum of its line quantities, and after every
hydration run (unconditionally), `totalQuantity` equals the sum of the
quantity fields of the items list. -/
theorem c2_total_quantity (s : CartState) (op : CartOp)
    (stored : LocalStorage) (fo : FetchOutcome CartResponse)
    (h : totalInv s) :
    totalInv (applyCartOp s op).1 ∧ totalInv (initializeCart stored fo).1 := by
  refine ⟨?_, totalInv_initializeCart stored fo⟩
  cases op with
  | add p q c u => exact totalInv_addToCart s p q c u h
  | update pid q oc => exact totalInv_updateQuantity s pid q oc h
  | remove pid oc => exact totalInv_removeFromCart s pid oc h
  | clear oc => exact totalInv_clearCart s oc

/-- Witness for C2 at a concrete state, mutation and hydration input. -/
theorem c2_total_quantity_witness :
    totalInv (applyCartOp ⟨[c3Item], 2, some 7⟩ (CartOp.update 1 3 (.ok c3Response))).1 ∧
      totalInv (initializeCart ⟨none, none⟩ (.networkError "offline")).1 :=
  c2_total_quantity ⟨[c3Item], 2, some 7⟩ (CartOp.update 1 3 (.ok c3Response))
    ⟨none, none⟩ (.networkError "offline") (by norm_num [totalInv, totalQty, c3Item])

/-- C3 counterexample. The claim says a successful full-replace leaves the
cart with the server's line quantities. On a cart holding one line of
quantity 2, `updateQuantity(1, 3)` whose PUT succeeds with the server
reporting quantity 4 leaves the local quantity 3 in the state: every
mutation passes an override list to `updateCartAPI`, and on that path the
server response is discarded (the adopting branch of cart-context.tsx lines
455-468 only runs when no override is passed, which no caller does). -/
theorem c3_server_response_ignored :
    ((updateQuantity c3State 1 3 (.ok c3Response)).1.items.map
      (fun it => it.quantity)) = [3] ∧
      (c3Response.products.map (fun p => p.quantity)) = [4] ∧ (3 : ℚ) ≠ 4 :=
  ⟨by decide, by decide, by norm_num⟩

/-- C3 amended: for every mutating operation on an existing cart whose
remote full-replace call succeeds, the resulting line list is exactly the
locally computed (optimistic) list that was pushed — the server's response
is ignored whenever an override list is passed, which every mutation does —
and the full (id, quantity) list is what the PUT carries; the server
response is adopted (quantities from the response, each line's stock matched
by product id against the pre-call list with default 0) only when
`updateCartAPI` is called without an override, which no caller does. -/
theorem c3_optimistic_state_kept (s0 a : CartState) (xs : List CartItem)
    (body : CartResponse) (cid : ℤ) (h1 : s0.cartId = some cid) (h2 : cid ≠ 0) :
    updateCartAPI s0 a (some xs) (.ok body) =
      (a, [RemoteCall.putCart cid false (xs.map (fun p => (p.id, p.quantity)))]) ∧
      (updateCartAPI s0 a none (.ok body)).1.items =
        body.products.map (fun p =>
          ⟨p.id, p.quantity, p.price, p.title, p.thumbnail,
            stockOrDefault (a.items.find? (fun i => i.id == p.id)) 0⟩) := by
  have h0 : (cid == 0) = false := by simpa using h2
  constructor
  · unfold updateCartAPI
    rw [h1]
    simp [h0]
  · unfold updateCartAPI
    rw [h1]
    simp [h0]

/-- Witness for C3 amended at a concrete cart, override list and server
response. -/
theorem c3_optimistic_state_kept_witness :
    updateCartAPI c3State c3State (some [⟨1, 3, 10, "A", "t", 5⟩]) (.ok c3Response) =
      (c3State, [RemoteCall.putCart 7 false [(1, 3)]]) ∧
      (updateCartAPI c3State c3State none (.ok c3Response)).1.items =
        c3Response.products.map (fun p =>
          ⟨p.id, p.quantity, p.price, p.title, p.thumbnail,
            stockOrDefault (c3State.items.find? (fun i => i.id == p.id)) 0⟩) :=
  c3_optimistic_state_kept c3State c3State [⟨1, 3, 10, "A", "t", 5⟩] c3Response 7
    rfl (by norm_num)

/-- C4 evaluation at the failing input of the repository's own test
("adds a new item to an empty cart (creates cart via API) - optimized
path"): adding product 1 (stock 10) to an empty cart with no remote id,
with the creation call succeeding as cart 101. The operation does adopt the
returned id and issues no further remote call, but the resulting item list
holds TWO lines for product 1 — the adopted server line with the
placeholder stock 100 and a duplicated appended line with stock 10 —
because addToCart consults a stale snapshot of the items; the claim (and
the test, which expects one line with stock 10) requires a single adopted
line whose stock ceiling is `product.stock`. -/
theorem c4_duplicate_line_on_first_add :
    (addToCart ⟨[], 0, none⟩ c4Product 1 (.ok c4CreateResponse) (.ok ⟨101, []⟩)).1.cartId
        = some 101 ∧
      (addToCart ⟨[], 0, none⟩ c4Product 1 (.ok c4CreateResponse) (.ok ⟨101, []⟩)).1.items.map
        (fun it => (it.id, it.stock)) = [(1, 100), (1, 10)] ∧
      (addToCart ⟨[], 0, none⟩ c4Product 1 (.ok c4CreateResponse) (.ok ⟨101, []⟩)).2 =
        [RemoteCall.createCart 1 [(1, 1)]] :=
  ⟨by decide, by decide, by decide⟩

/-- C5 counterexample. The claim says a non-404 hydration failure falls back
to the locally stored items and keeps the stored keys. With stored id 9 and
one stored line, a 500 response leaves an EMPTY cart and removes both
stored keys (cart-context.tsx lines 75-82). -/
theorem c5_fallback_counterexample :
    (initializeCart c5Stored (.httpError 500 "Internal Server Error")).1.items = [] ∧
      c5Stored.cartItems = some [c5Item] ∧ ([] : List CartItem) ≠ [c5Item] ∧
      (initializeCart c5Stored (.httpError 500 "Internal Server Error")).2 = ⟨none, none⟩ :=
  ⟨by decide, by decide, by decide, by decide⟩

/-- C5 amended: for every hydration run where a stored remote cart id exists
and the remote fetch fails — any non-ok HTTP status (404 or otherwise) or a
network rejection — the resulting cart state is empty and both stored keys
are cleared; the locally stored items are discarded, the same recovery as
the 404 case. -/
theorem c5_reset_on_failure (stored : LocalStorage) (cid status : ℤ)
    (txt msg : String) (h : stored.cartId = some cid) :
    initializeCart stored (.httpError status txt) = (emptyCartState, ⟨none, none⟩) ∧
      initializeCart stored (.networkError msg) = (emptyCartState, ⟨none, none⟩) := by
  constructor
  · unfold initializeCart
    rw [h]
    by_cases h4 : (status == 404) = true
    · simp [h4]
    · simp [h4]
  · unfold initializeCart
    rw [h]

/-- Witness for C5 amended at the concrete stored keys of the
counterexample. -/
theorem c5_reset_on_failure_witness :
    initializeCart c5Stored (.httpError 500 "Internal Server Error") =
        (emptyCartState, ⟨none, none⟩) ∧
      initializeCart c5Stored (.networkError "offline") =
        (emptyCartState, ⟨none, none⟩) :=
  c5_reset_on_failure c5Stored 9 500 "Internal Server Error" "offline" rfl

/-- C6 evaluation at the failing input of the repository's own hydration
test ("loads cart from localStorage if cartId exists and fetch is
successful", which stores a local line with stock 10 and expects that stock
to be preserved): hydrating with stored id 789, a stored line recording
stock 10 for product 1, and a successful fetch returning that line with
quantity 2, yields stock `p.totalQuantity / p.quantity = 2 / 2 = 1` — the
stored stock ceiling 10 is never consulted and neither is the 100 default;
the code estimates stock from response fields instead (cart-context.tsx
line 63). -/
theorem c6_hydration_stock_estimate :
    (initializeCart ⟨some 789, some [c6LocalItem]⟩
        (.ok ⟨789, [c6RemoteLine]⟩)).1.items.map (fun it => it.stock) = [1] ∧
      c6LocalItem.stock = 10 ∧ ((1 : ℚ) ≠ 10) ∧ ((1 : ℚ) ≠ 100) := by
  refine ⟨?_, rfl, by norm_num, by norm_num⟩
  norm_num [initializeCart, hydratedItem, c6RemoteLine]

/-- C7: every updateQuantity or removeFromCart call made while the cart has
no remote id, or targeting a product id with no matching line, leaves the
cart state unchanged and issues no remote call (the model is total, so no
exception outcome exists: the source logs and returns). -/
theorem c7_caller_misuse_noop (s : CartState) (pid : ℤ) (q : ℚ)
    (oc1 oc2 : FetchOutcome CartResponse)
    (h : s.cartId = none ∨ s.items.find? (fun it => it.id == pid) = none) :
    updateQuantity s pid q oc1 = (s, []) ∧ removeFromCart s pid oc2 = (s, []) := by
  rcases h with h | h
  · constructor
    · unfold updateQuantity
      rw [h]
    · unfold removeFromCart
      rw [h]
  · cases hc : s.cartId with
    | none =>
      constructor
      · unfold updateQuantity
        rw [hc]
      · unfold removeFromCart
        rw [hc]
    | some cid =>
      constructor
      · unfold updateQuantity
        rw [hc]
        dsimp only
        rw [h]
      · unfold removeFromCart
        rw [hc]
        dsimp only
        rw [h]

/-- Witness for C7: an update and a remove against a cart with no remote
id. -/
theorem c7_caller_misuse_noop_witness :
    updateQuantity ⟨[], 0, none⟩ 1 2 (.networkError "offline") = (⟨[], 0, none⟩, []) ∧
      removeFromCart ⟨[], 0, none⟩ 1 (.networkError "offline") = (⟨[], 0, none⟩, []) :=
  c7_caller_misuse_noop ⟨[], 0, none⟩ 1 2 (.networkError "offline")
    (.networkError "offline") (Or.inl rfl)

/-- C8 counterexample. The claim says every read-path fetch whose body lacks
the products array is treated as a fetch failure. The recommendations
widget instead coerces the missing array with `data.products || []`
(recommendations-widget.tsx line 28) and renders the success/empty state,
not the error state. -/
theorem c8_missing_products_not_error :
    fetchRecommendations none (.ok ⟨none, none⟩) = RecState.success [] ∧
      (fetchRecommendations none (.ok ⟨none, none⟩)).isError = false :=
  ⟨rfl, rfl⟩

/-- C8 amended: of the two read paths, only the product list loader treats a
response body lacking the products array as a fetch failure (it throws a
500 "Invalid data format from API" Response); the recommendations widget
coerces a missing products array to the empty list and reaches the
(possibly empty) success state — its error outcome arises only from non-ok
statuses and rejected fetches. -/
theorem c8_read_path_split (t : Option ℚ) (cid : Option ℤ) :
    loader (.ok ⟨none, t⟩) = LoaderResult.failure 500 "Invalid data format from API" ∧
      fetchRecommendations cid (.ok ⟨none, t⟩) = RecState.success [] := by
  constructor
  · rfl
  · unfold fetchRecommendations
    cases cid with
    | none => rfl
    | some pid =>
      by_cases h0 : (pid == 0) = true
      · simp [h0]
      · simp [h0]

/-- C9 counterexample. The claim says the terminal end-of-results indicator
is shown once exhausted if and only if at least one item was ever loaded.
Starting from an initial load of zero items with server total 1, one
successful fetch returns one item and exhausts the list (1 ≥ total), yet
the indicator stays hidden because the render condition also requires the
INITIAL load to have been non-empty (home.tsx line 127). -/
theorem c9_end_indicator_counterexample :
    c9S1.hasMore = false ∧ c9S1.loadingMore = false ∧ c9S1.products.length = 1 ∧
      showEndIndicator c9Init c9S1 = false := by
  norm_num [c9S1, c9Init, fetchMoreProducts, initHomeState, showEndIndicator, c9Prod]

/-- C9 amended: for the product list view, (a) a successful page fetch made
while fetching is still enabled stops further fetching exactly when the
accumulated count reaches the response's reported total or the page is
empty, and (b) after any sequence of fetches the terminal end-of-results
indicator is shown if and only if the list is exhausted AND the initial
load returned at least one item (items loaded by later pages alone do not
enable it); an errored fetch also stops further fetching. -/
theorem c9_pagination_amended (d : HomeLoaderData)
    (ocs : List (FetchOutcome ProductsResponse)) (ps : List Product) (t : ℚ) :
    ((runFetches d ocs).hasMore = true →
      ((fetchMoreProducts (runFetches d ocs) (.ok ⟨some ps, some t⟩)).hasMore = false ↔
        (ps = [] ∨ t ≤ (((runFetches d ocs).products.length : ℚ) + ps.length)))) ∧
      showEndIndicator d (runFetches d ocs) =
        (!(runFetches d ocs).hasMore && decide (0 < d.products.length)) :=
  ⟨fun hm => fetchMore_stop_iff _ ps t (loadingMore_runFetches d ocs) hm,
    showEnd_runFetches d ocs⟩

/-- Witness for C9 amended: one-item initial load with total 2, no fetches
yet, probing a one-item page. -/
theorem c9_pagination_amended_witness :
    ((runFetches c9WitData []).hasMore = true →
      ((fetchMoreProducts (runFetches c9WitData []) (.ok ⟨some [c9Prod], some 2⟩)).hasMore = false ↔
        ([c9Prod] = [] ∨ (2 : ℚ) ≤ (((runFetches c9WitData []).products.length : ℚ) + [c9Prod].length)))) ∧
      showEndIndicator c9WitData (runFetches c9WitData []) =
        (!(runFetches c9WitData []).hasMore && decide (0 < c9WitData.products.length)) :=
  c9_pagination_amended c9WitData [] [c9Prod] 2

/-- C10: every updateQuantity, removeFromCart and clearCart call, and every
addToCart call made while the cart already has a remote id, leaves the
`cartId` field of the cart state unchanged, whatever the remote outcomes. -/
theorem c10_cartId_frame (s : CartState) (op : CartOp)
    (h : opIsAdd op → s.cartId ≠ none) :
    (applyCartOp s op).1.cartId = s.cartId := by
  cases op with
  | add p q c u => exact cartId_addToCart_existing s p q c u (h trivial)
  | update pid q oc => exact cartId_updateQuantity s pid q oc
  | remove pid oc => exact cartId_removeFromCart s pid oc
  | clear oc => exact cartId_clearCart s oc

/-- Witness for C10: an add against a cart with remote id 3. -/
theorem c10_cartId_frame_witness :
    (applyCartOp ⟨[], 0, some 3⟩
      (CartOp.add c1GoodProduct 1 (.networkError "offline") (.networkError "offline"))).1.cartId
      = some 3 :=
  c10_cartId_frame ⟨[], 0, some 3⟩
    (CartOp.add c1GoodProduct 1 (.networkError "offline") (.networkError "offline"))
    (fun _ => by decide)

end Shop
